import Mathlib

/-!
# Verification of the PledgeAgent adaptive trust engine

Shallow embedding of the core modules of the `pledge` repository:

* `fraud_detector.py` — `FraudPatternMatcher` (fraud scoring, submission
  history, learned patterns),
* `brain.py` — `PledgeAgentBrain._make_decision` and the verdict routing
  of `process_submission`,
* `stake_adjuster.py` — `StakeAdjuster` (behavioral profile updates and
  the ultimatum query).

Python floats are modelled as rationals (`ℚ`); all concrete constants in
the code (0.4, 1.2, 500.0, …) are exactly representable and the arithmetic
performed on them stays exact.  Timestamps are modelled as integer seconds.
External library calls (SHA-256, perceptual hashing, haversine trig) are
modelled as opaque function parameters gathered in `FraudEnv`: none of the
verified properties depends on their concrete values.
-/

namespace Pledge

/-! ## Fraud scoring (`FraudPatternMatcher._calculate_fraud_score`) -/

/-- The fixed per-signal weight table of `_calculate_fraud_score`
(`fraud_detector.py` lines 365-374); `signal_weights.get(signal, 0.15)`
returns 0.15 for any unlisted signal. -/
def signalWeight (s : String) : ℚ :=
  if s = "duplicate_image" then 40/100
  else if s = "similar_image_detected" then 30/100
  else if s = "old_photo" then 35/100
  else if s = "location_mismatch" then 25/100
  else if s = "rapid_submissions" then 20/100
  else if s = "known_fraud_pattern" then 50/100
  else if s = "missing_timestamp" then 10/100
  else if s = "unusual_hour" then 5/100
  else 15/100

/-- `FraudPatternMatcher._calculate_fraud_score` (`fraud_detector.py`
lines 351-381): starts from `score = 0.0`, adds the weight of every
signal in order, and returns `min(score, 1.0)`.  The Python function also
receives a `details` dict that it never reads, so it is omitted here. -/
def calculate_fraud_score (signals : List String) : ℚ :=
  min (signals.foldl (fun score s => score + signalWeight s) 0) 1

/-! ## Decision synthesis (`PledgeAgentBrain._make_decision`) -/

/-- The `Verdict` enum of `brain.py`. -/
inductive Verdict where
  | approved
  | rejected
  | unclear
  | fraud_detected
deriving DecidableEq, Repr

/-- The decision dict produced by `_make_decision`. -/
structure Decision where
  verdict : Verdict
  confidence : ℚ
  confidence_tier : String
  primary_reason : String
deriving DecidableEq, Repr

/-- `PledgeAgentBrain._make_decision` (`brain.py` lines 176-236).
`visionVerdict` is the classifier's verdict string, `visionConfidencePct`
its 0-100 confidence (the code divides by 100), `fraudScore` the fraud
engine's score. -/
def make_decision (visionVerdict : String) (visionConfidencePct : ℚ)
    (fraudScore : ℚ) : Decision :=
  let visionConfidence := visionConfidencePct / 100
  if fraudScore > 7/10 then
    ⟨Verdict.fraud_detected, fraudScore, "high", "fraud_patterns"⟩
  else if visionVerdict = "approve" ∧ visionConfidence > 85/100 ∧ fraudScore < 30/100 then
    ⟨Verdict.approved, visionConfidence, "high", "vision_approved"⟩
  else if visionVerdict = "approve" ∧ visionConfidence > 60/100 ∧ fraudScore < 50/100 then
    ⟨Verdict.approved, visionConfidence, "medium", "vision_approved"⟩
  else if visionVerdict = "reject" then
    ⟨Verdict.rejected, 1 - visionConfidence, "high", "vision_rejected"⟩
  else
    ⟨Verdict.unclear, 1/2, "low", "insufficient_confidence"⟩

/-! ## Signal store and fraud pipeline (`fraud_detector.py`) -/

/-- The `FraudAttempt` database row (`fraud_detector.py` lines 23-34).
`timestamp` is the row-creation time in integer seconds; `agent_verdict`
is the string column initialised to `"pending"` by `_log_attempt`. -/
structure FraudAttempt where
  user_id : String
  goal_id : String
  image_hash : String
  perceptual_hash : String
  detected_signals : List String
  agent_verdict : String
  timestamp : ℤ
deriving DecidableEq, Repr

/-- The `FraudPattern` database row (`fraud_detector.py` lines 37-46).
`rule_signals` is the `detection_rule["signals"]` payload. -/
structure FraudPattern where
  pattern_type : String
  rule_signals : List String
  confidence_threshold : ℚ
  times_detected : ℕ
  last_updated : ℤ
deriving DecidableEq, Repr

/-- The persistent state behind one `FraudPatternMatcher`: the two tables
it reads and writes.  Rows are kept in insertion order, matching the
default iteration order of the unordered SQL queries in the module. -/
structure FraudStore where
  attempts : List FraudAttempt
  patterns : List FraudPattern
deriving DecidableEq, Repr

/-- Store of a freshly created database. -/
def emptyStore : FraudStore := ⟨[], []⟩

/-- External inputs of one `analyze` call that the module does not itself
compute: the two hash functions from `hashlib`/`imagehash`, the
perceptual-similarity test (Hamming distance ≤ 5, with undecodable stored
hashes skipped), the haversine tolerance test from `_locations_match`,
and the server clock.  Evidence bytes are `List ℕ`. -/
structure FraudEnv where
  sha256 : List ℕ → String
  phash : List ℕ → String
  phashSimilar : String → String → Bool
  locations_match : (ℚ × ℚ) → (ℚ × ℚ) → Bool
  now : ℤ
  nowHour : ℕ

/-- The fields of the `metadata` dict read by `_check_metadata`.  The
timestamp is `none` when absent, `some none` when present but rejected by
`datetime.fromisoformat`, and `some (some t)` when it parses to `t`
(seconds). -/
structure Metadata where
  timestamp : Option (Option ℤ)
  gps_location : Option (ℚ × ℚ)
  user_location : Option (ℚ × ℚ)

/-- `FraudPatternMatcher._is_duplicate_hash` (`fraud_detector.py` lines
169-179): some prior attempt of this user has the same content hash. -/
def is_duplicate_hash (store : FraudStore) (file_hash : String) (user_id : String) : Bool :=
  store.attempts.any (fun a => a.user_id = user_id ∧ a.image_hash = file_hash)

/-- `FraudPatternMatcher._find_similar_images` (`fraud_detector.py` lines
181-216): empty query hash short-circuits to `[]`; otherwise every prior
attempt of the user whose stored hash is similar (per the environment's
distance test, which also absorbs the per-row decode `except`). -/
def find_similar_images (env : FraudEnv) (store : FraudStore)
    (perceptual_hash : String) (user_id : String) : List FraudAttempt :=
  if perceptual_hash = "" then []
  else
    (store.attempts.filter (fun a => a.user_id = user_id)).filter
      (fun a => env.phashSimilar perceptual_hash a.perceptual_hash)

/-- `FraudPatternMatcher._check_metadata` (`fraud_detector.py` lines
218-254).  `int(age.total_seconds() / 3600)` truncates a positive age,
which `Int.fdiv` reproduces since the `old_photo` branch requires the age
to exceed 24 hours. -/
def check_metadata (env : FraudEnv) (md : Metadata) : List String :=
  let timestamp_issues :=
    match md.timestamp with
    | none => ["missing_timestamp"]
    | some none => ["invalid_timestamp"]
    | some (some t) =>
      if env.now - t > 24 * 3600 then
        ["old_photo", "image_age_" ++ toString (Int.fdiv (env.now - t) 3600) ++ "h"]
      else []
  let gps_issues :=
    match md.gps_location, md.user_location with
    | some gps, some expected =>
      if ¬ env.locations_match gps expected then ["location_mismatch"] else []
    | _, _ => []
  timestamp_issues ++ gps_issues

/-- `FraudPatternMatcher._check_temporal_patterns` (`fraud_detector.py`
lines 294-329): more than 3 attempts of this user in the trailing hour
flags `rapid_submissions`; a server hour before 5 or after 23 flags
`unusual_hour`. -/
def check_temporal_patterns (env : FraudEnv) (store : FraudStore)
    (user_id : String) : List String :=
  let recent_count :=
    (store.attempts.filter
      (fun a => a.user_id = user_id ∧ a.timestamp > env.now - 3600)).length
  (if recent_count > 3 then ["rapid_submissions"] else []) ++
    (if env.nowHour < 5 ∨ env.nowHour > 23 then ["unusual_hour"] else [])

/-- `FraudPatternMatcher._match_known_patterns` (`fraud_detector.py`
lines 331-349): pattern types whose required signal set is contained in
the current signals, in table order. -/
def match_known_patterns (store : FraudStore) (signals : List String) : List String :=
  (store.patterns.filter
    (fun p => p.rule_signals.all (fun s => signals.contains s))).map
    (fun p => p.pattern_type)

/-- The canonical pattern key of `_update_patterns`:
`"_".join(sorted(signals[:2]))`. -/
def patternKey (signals : List String) : String :=
  String.intercalate "_" ((signals.take 2).mergeSort (fun a b => a ≤ b))

/-- In-place update of the first row matching `key` (SQLAlchemy
`.first()` followed by the mutation `times_detected += 1`,
`last_updated = utcnow`). -/
def bumpPattern (now : ℤ) (key : String) : List FraudPattern → List FraudPattern
  | [] => []
  | p :: rest =>
    if p.pattern_type = key then
      { p with times_detected := p.times_detected + 1, last_updated := now } :: rest
    else
      p :: bumpPattern now key rest

/-- `FraudPatternMatcher._update_patterns` (`fraud_detector.py` lines
416-444): increment-if-exists on the canonical key, else insert a fresh
row with threshold 0.7 and hit count 1. -/
def update_patterns (now : ℤ) (signals : List String)
    (patterns : List FraudPattern) : List FraudPattern :=
  let key := patternKey signals
  if patterns.any (fun p => p.pattern_type = key) then
    bumpPattern now key patterns
  else
    patterns ++ [⟨key, signals.take 2, 7/10, 1, now⟩]

/-- `FraudPatternMatcher._log_attempt` (`fraud_detector.py` lines
383-414): append one `FraudAttempt` row with `agent_verdict = "pending"`,
then run `_update_patterns` when at least two signals were detected. -/
def log_attempt (env : FraudEnv) (store : FraudStore) (user_id goal_id : String)
    (file_hash perceptual_hash : String) (signals : List String) : FraudStore :=
  let attempts' := store.attempts ++
    [⟨user_id, goal_id, file_hash, perceptual_hash, signals, "pending", env.now⟩]
  let patterns' :=
    if signals.length ≥ 2 then update_patterns env.now signals store.patterns
    else store.patterns
  ⟨attempts', patterns'⟩

/-- The dict returned by `analyze` (the unread `details` map is not
modelled). -/
structure FraudResult where
  score : ℚ
  signals : List String
deriving DecidableEq, Repr

/-- `FraudPatternMatcher.analyze` (`fraud_detector.py` lines 72-151):
the five checks run in order, each appending its signals; the score is
computed from the final list; `_log_attempt` records the attempt.
Returns the updated store together with the result dict. -/
def analyze (env : FraudEnv) (store : FraudStore) (image_data : List ℕ)
    (user_id goal_id : String) (md : Metadata) : FraudStore × FraudResult :=
  let file_hash := env.sha256 image_data
  let s1 : List String :=
    if is_duplicate_hash store file_hash user_id then ["duplicate_image"] else []
  let perceptual_hash := env.phash image_data
  let s2 := s1 ++
    (if (find_similar_images env store perceptual_hash user_id).length > 0 then
      ["similar_image_detected"] else [])
  let s3 := s2 ++ check_metadata env md
  let s4 := s3 ++ check_temporal_patterns env store user_id
  let s5 := s4 ++
    (if (match_known_patterns store s4).length > 0 then ["known_fraud_pattern"] else [])
  let fraud_score := calculate_fraud_score s5
  let store' := log_attempt env store user_id goal_id file_hash perceptual_hash s5
  (store', ⟨fraud_score, s5⟩)

/-! ## Adaptive stake controller (`stake_adjuster.py`) -/

/-- The `UserProfile` database row (`stake_adjuster.py` lines 18-32).
Timestamps are integer seconds since the epoch. -/
structure UserProfile where
  current_stake : ℚ
  current_streak : ℕ
  total_successes : ℕ
  total_failures : ℕ
  recent_failures : ℕ
  last_success_date : Option ℤ
  last_failure_date : Option ℤ
  compassion_mode : Bool
deriving DecidableEq, Repr

/-- The column defaults of `UserProfile`: the state of a profile freshly
created by `_get_or_create_profile`. -/
def freshProfile : UserProfile :=
  { current_stake := 10
    current_streak := 0
    total_successes := 0
    total_failures := 0
    recent_failures := 0
    last_success_date := none
    last_failure_date := none
    compassion_mode := false }

/-- `StakeAdjuster.record_success` (`stake_adjuster.py` lines 51-84).
Result components: the updated profile; the `(old_stake, new_stake)` pair
forwarded to `opik.log_stake_adjustment` when the stake changed and a
logger is attached (`none` otherwise); and the Python return value, which
is `None` because the function has no `return` statement. -/
def record_success (now : ℤ) (p : UserProfile) :
    UserProfile × Option (ℚ × ℚ) × Option (Bool × ℚ × ℚ) :=
  let old_stake := p.current_stake
  let p1 : UserProfile :=
    { p with
      current_streak := p.current_streak + 1
      total_successes := p.total_successes + 1
      recent_failures := 0
      last_success_date := some now
      compassion_mode := false }
  if p1.current_streak ≥ 3 then
    let p2 := { p1 with current_stake := min (old_stake * (12/10)) 500 }
    (p2, some (old_stake, p2.current_stake), none)
  else
    (p1, none, none)

/-- `StakeAdjuster.record_failure` (`stake_adjuster.py` lines 86-119).
Same result shape as `record_success`; the Python function likewise has
no `return` statement. -/
def record_failure (now : ℤ) (p : UserProfile) :
    UserProfile × Option (ℚ × ℚ) × Option (Bool × ℚ × ℚ) :=
  let old_stake := p.current_stake
  let p1 : UserProfile :=
    { p with
      current_streak := 0
      total_failures := p.total_failures + 1
      recent_failures := p.recent_failures + 1
      last_failure_date := some now }
  if p1.recent_failures ≥ 2 then
    let p2 := { p1 with
      compassion_mode := true
      current_stake := max (old_stake * (8/10)) 10 }
    (p2, some (old_stake, p2.current_stake), none)
  else
    (p1, none, none)

/-- One mutating operation on a behavioral profile, tagged with the clock
value at which it runs. -/
inductive StakeOp where
  | success (now : ℤ)
  | failure (now : ℤ)
deriving DecidableEq, Repr

/-- State effect of one operation. -/
def applyOp (p : UserProfile) : StakeOp → UserProfile
  | .success now => (record_success now p).1
  | .failure now => (record_failure now p).1

/-- State reached from `p` after running a sequence of operations. -/
def applyOps (p : UserProfile) (ops : List StakeOp) : UserProfile :=
  ops.foldl applyOp p

/-- The goal row fields consulted by `should_send_ultimatum`
(`models.py` `Goal`): timestamps in integer seconds, counts as integers. -/
structure Goal where
  start_date : Option ℤ
  end_date : ℤ
  duration_days : ℤ
  required_submissions : ℤ
deriving DecidableEq, Repr

/-- Outcome of the goal-registry lookup inside `should_send_ultimatum`:
`.error` when the query (or anything else in the `try` block) raises,
`.ok none` when no goal row matches, `.ok (some g)` when one does. -/
abbrev GoalLookup := Except Unit (Option Goal)

/-- `StakeAdjuster.should_send_ultimatum` (`stake_adjuster.py` lines
151-198).  `timedelta.days` floors, hence `Int.fdiv` by 86400.  When the
lookup raises, the `except` clause swallows the exception and control
falls through to the final `return profile.recent_failures >= 3`.  When
`duration_days = 0` the Python division `days_remaining /
goal.duration_days` raises inside the `try`, landing in the same
fallback; the rational convention `x / 0 = 0` reproduces that outcome
exactly (the pace test then compares against `required_rate = 0`, which
never fires because the completion rate is non-negative). -/
def should_send_ultimatum (p : UserProfile) (lookup : GoalLookup) (now : ℤ) : Bool :=
  match lookup with
  | .error _ => decide (p.recent_failures ≥ 3)
  | .ok none => decide (p.recent_failures ≥ 3)
  | .ok (some goal) =>
    if p.recent_failures ≥ 3 then true
    else
      let days_remaining := Int.fdiv (goal.end_date - now) 86400
      let days_elapsed : ℤ := match goal.start_date with
        | some s => Int.fdiv (now - s) 86400
        | none => 0
      let total_submissions := p.total_successes + p.total_failures
      let completion_rate : ℚ :=
        if total_submissions > 0 then (p.total_successes : ℚ) / total_submissions else 0
      let required_rate : ℚ :=
        if goal.duration_days > 0 then (goal.required_submissions : ℚ) / goal.duration_days else 0
      if days_remaining > 0 ∧ days_elapsed > 0 ∧
          (days_remaining : ℚ) / (goal.duration_days : ℚ) < 25/100 ∧
          completion_rate < required_rate * (5/10) then
        true
      else
        decide (p.recent_failures ≥ 3)

/-! ## Orchestration (`brain.py` `process_submission`) -/

/-- The classifier output consumed by `process_submission`: verdict
string and 0-100 confidence (the external vision call itself is out of
scope). -/
structure VisionResult where
  verdict : String
  confidence : ℚ
deriving DecidableEq, Repr

/-- The state-relevant pipeline of `PledgeAgentBrain.process_submission`
(`brain.py` lines 51-174): fraud analysis, decision synthesis, and the
step-7 routing `if decision["verdict"] == Verdict.APPROVED:
record_success else: record_failure`.  The blockchain and observability
steps touch no modelled state (their exceptions are swallowed), and the
message/personality steps are presentation only. -/
def process_submission (env : FraudEnv) (store : FraudStore) (profile : UserProfile)
    (vision : VisionResult) (image_data : List ℕ) (user_id goal_id : String)
    (md : Metadata) : FraudStore × UserProfile × Decision × FraudResult :=
  let analyzed := analyze env store image_data user_id goal_id md
  let decision := make_decision vision.verdict vision.confidence analyzed.2.score
  let profile' :=
    if decision.verdict = Verdict.approved then (record_success env.now profile).1
    else (record_failure env.now profile).1
  (analyzed.1, profile', decision, analyzed.2)

/-- The profile invariant of §3: stake clamped to [10, 500], and
compassion mode only while the recent-failure counter is ≥ 2. -/
def StakeInv (p : UserProfile) : Prop :=
  10 ≤ p.current_stake ∧ p.current_stake ≤ 500 ∧
    (p.compassion_mode = true → 2 ≤ p.recent_failures)

/-- Concrete environment used to instantiate theorems: a constant
content hash, undecodable perceptual hashes, matching locations, clock at
the epoch, midday server hour. -/
def wEnv : FraudEnv :=
  { sha256 := fun _ => "h"
    phash := fun _ => ""
    phashSimilar := fun _ _ => false
    locations_match := fun _ _ => true
    now := 0
    nowHour := 12 }

/-- Concrete metadata used to instantiate theorems: a fresh parsed
timestamp and no GPS fields. -/
def wMd : Metadata :=
  { timestamp := some (some 0)
    gps_location := none
    user_location := none }

/-! ## Helper lemmas -/

lemma signalWeight_nonneg (s : String) : 0 ≤ signalWeight s := by
  unfold signalWeight
  repeat' split
  all_goals norm_num

lemma foldl_add_signalWeight (signals : List String) (a : ℚ) :
    signals.foldl (fun score s => score + signalWeight s) a
      = a + (signals.map signalWeight).sum := by
  induction signals generalizing a with
  | nil => simp
  | cons x xs ih => simp [List.foldl_cons, ih, add_assoc]

lemma calculate_fraud_score_eq_min (signals : List String) :
    calculate_fraud_score signals = min ((signals.map signalWeight).sum) 1 := by
  unfold calculate_fraud_score
  rw [foldl_add_signalWeight signals 0, zero_add]

/-! ## Claims -/

/-- C1: the fraud score returned by `analyze`'s scoring step is the sum
of the fixed per-signal weights (duplicate_image 0.40,
similar_image_detected 0.30, old_photo 0.35, location_mismatch 0.25,
rapid_submissions 0.20, known_fraud_pattern 0.50, missing_timestamp
0.10, unusual_hour 0.05, any unlisted signal 0.15) capped at 1.0; hence
it is always ≤ 1.0 and non-decreasing when the signal list is extended. -/
theorem C1_fraud_score_weighted_sum (signals extra : List String) (s : String)
    (hs : s ∉ ["duplicate_image", "similar_image_detected", "old_photo",
      "location_mismatch", "rapid_submissions", "known_fraud_pattern",
      "missing_timestamp", "unusual_hour"]) :
    calculate_fraud_score signals = min ((signals.map signalWeight).sum) 1
    ∧ signalWeight "duplicate_image" = 40/100
    ∧ signalWeight "similar_image_detected" = 30/100
    ∧ signalWeight "old_photo" = 35/100
    ∧ signalWeight "location_mismatch" = 25/100
    ∧ signalWeight "rapid_submissions" = 20/100
    ∧ signalWeight "known_fraud_pattern" = 50/100
    ∧ signalWeight "missing_timestamp" = 10/100
    ∧ signalWeight "unusual_hour" = 5/100
    ∧ signalWeight s = 15/100
    ∧ calculate_fraud_score signals ≤ 1
    ∧ calculate_fraud_score signals ≤ calculate_fraud_score (signals ++ extra) := by
  simp only [List.mem_cons, List.not_mem_nil, or_false, not_or] at hs
  obtain ⟨h1, h2, h3, h4, h5, h6, h7, h8⟩ := hs
  refine ⟨calculate_fraud_score_eq_min signals, by simp [signalWeight],
    by simp [signalWeight], by simp [signalWeight], by simp [signalWeight],
    by simp [signalWeight], by simp [signalWeight], by simp [signalWeight],
    by simp [signalWeight], ?_, ?_, ?_⟩
  · simp [signalWeight, h1, h2, h3, h4, h5, h6, h7, h8]
  · rw [calculate_fraud_score_eq_min]
    exact min_le_right _ _
  · rw [calculate_fraud_score_eq_min, calculate_fraud_score_eq_min]
    refine min_le_min ?_ le_rfl
    rw [List.map_append, List.sum_append]
    have : 0 ≤ (extra.map signalWeight).sum :=
      List.sum_nonneg (fun x hx => by
        obtain ⟨y, -, rfl⟩ := List.mem_map.mp hx
        exact signalWeight_nonneg y)
    linarith

/-- Witness for C1 at concrete inputs. -/
theorem C1_fraud_score_weighted_sum_witness :
    calculate_fraud_score ["duplicate_image", "old_photo"]
        ≤ calculate_fraud_score (["duplicate_image", "old_photo"] ++ ["unusual_hour"])
      ∧ signalWeight "image_age_26h" = 15/100 := by
  have h := C1_fraud_score_weighted_sum ["duplicate_image", "old_photo"]
    ["unusual_hour"] "image_age_26h" (by decide)
  exact ⟨h.2.2.2.2.2.2.2.2.2.2.2, h.2.2.2.2.2.2.2.2.2.1⟩

/-- C2: `_make_decision` evaluates its rules in fixed order, first match
winning: fraud score above 0.70 forces FRAUD_DETECTED with confidence
equal to the fraud score and tier high, regardless of the classifier;
otherwise approve with normalized confidence above 0.85 and fraud below
0.30 gives APPROVED tier high; otherwise approve above 0.60 with fraud
below 0.50 gives APPROVED tier medium; otherwise reject gives REJECTED
with confidence one minus the classifier confidence; otherwise UNCLEAR
with confidence 0.5 and tier low. -/
theorem C2_decision_precedence (vv : String) (pct fs : ℚ) :
    (fs > 7/10 →
      make_decision vv pct fs = ⟨Verdict.fraud_detected, fs, "high", "fraud_patterns"⟩)
    ∧ (¬ fs > 7/10 → vv = "approve" → pct/100 > 85/100 → fs < 30/100 →
      make_decision vv pct fs = ⟨Verdict.approved, pct/100, "high", "vision_approved"⟩)
    ∧ (¬ fs > 7/10 → ¬ (vv = "approve" ∧ pct/100 > 85/100 ∧ fs < 30/100) →
      vv = "approve" → pct/100 > 60/100 → fs < 50/100 →
      make_decision vv pct fs = ⟨Verdict.approved, pct/100, "medium", "vision_approved"⟩)
    ∧ (¬ fs > 7/10 → ¬ (vv = "approve" ∧ pct/100 > 85/100 ∧ fs < 30/100) →
      ¬ (vv = "approve" ∧ pct/100 > 60/100 ∧ fs < 50/100) → vv = "reject" →
      make_decision vv pct fs = ⟨Verdict.rejected, 1 - pct/100, "high", "vision_rejected"⟩)
    ∧ (¬ fs > 7/10 → ¬ (vv = "approve" ∧ pct/100 > 85/100 ∧ fs < 30/100) →
      ¬ (vv = "approve" ∧ pct/100 > 60/100 ∧ fs < 50/100) → ¬ vv = "reject" →
      make_decision vv pct fs
        = ⟨Verdict.unclear, 1/2, "low", "insufficient_confidence"⟩) := by
  unfold make_decision
  refine ⟨fun h1 => ?_, fun h1 h2 h3 h4 => ?_, fun h1 h2 h3 h4 h5 => ?_,
    fun h1 h2 h3 h4 => ?_, fun h1 h2 h3 h4 => ?_⟩
  · rw [if_pos h1]
  · rw [if_neg h1, if_pos ⟨h2, h3, h4⟩]
  · rw [if_neg h1, if_neg h2, if_pos ⟨h3, h4, h5⟩]
  · rw [if_neg h1, if_neg h2, if_neg h3, if_pos h4]
  · rw [if_neg h1, if_neg h2, if_neg h3, if_neg h4]

/-- Witness for C2: fraud score 0.71 with classifier approve at
confidence 99 still yields FRAUD_DETECTED — the fraud override wins. -/
theorem C2_decision_precedence_witness :
    make_decision "approve" 99 (71/100)
      = ⟨Verdict.fraud_detected, 71/100, "high", "fraud_patterns"⟩ :=
  (C2_decision_precedence "approve" 99 (71/100)).1 (by norm_num)

lemma stakeInv_fresh : StakeInv freshProfile := by
  refine ⟨by norm_num [freshProfile], by norm_num [freshProfile], ?_⟩
  intro h
  simp [freshProfile] at h

lemma stakeInv_record_success (now : ℤ) (p : UserProfile) (hp : StakeInv p) :
    StakeInv (record_success now p).1 := by
  obtain ⟨h10, h500, -⟩ := hp
  unfold record_success
  dsimp only
  split
  · refine ⟨le_min (by linarith) (by norm_num), min_le_right _ _, ?_⟩
    intro h
    simp at h
  · refine ⟨h10, h500, ?_⟩
    intro h
    simp at h

lemma stakeInv_record_failure (now : ℤ) (p : UserProfile) (hp : StakeInv p) :
    StakeInv (record_failure now p).1 := by
  obtain ⟨h10, h500, hcomp⟩ := hp
  unfold record_failure
  dsimp only
  split
  · next hge =>
    refine ⟨le_max_right _ _, max_le (by linarith) (by norm_num), fun _ => ?_⟩
    simpa using hge
  · next hlt =>
    refine ⟨h10, h500, fun h => ?_⟩
    simp only at h
    have := hcomp h
    omega

lemma stakeInv_applyOps (ops : List StakeOp) (p : UserProfile) (hp : StakeInv p) :
    StakeInv (applyOps p ops) := by
  induction ops generalizing p with
  | nil => exact hp
  | cons op rest ih =>
    refine ih (applyOp p op) ?_
    cases op with
    | success now => exact stakeInv_record_success now p hp
    | failure now => exact stakeInv_record_failure now p hp

/-- C3: in every profile reachable from a fresh profile by success and
failure recordings, the stake stays within the floor 10 and ceiling 500,
compassion mode holds only while the recent-failure counter is ≥ 2, the
counter is 0 right after any success, and that success also clears
compassion mode. -/
theorem C3_profile_invariants (ops : List StakeOp) (now : ℤ) :
    10 ≤ (applyOps freshProfile ops).current_stake
    ∧ (applyOps freshProfile ops).current_stake ≤ 500
    ∧ ((applyOps freshProfile ops).compassion_mode = true →
        2 ≤ (applyOps freshProfile ops).recent_failures)
    ∧ (record_success now (applyOps freshProfile ops)).1.recent_failures = 0
    ∧ (record_success now (applyOps freshProfile ops)).1.compassion_mode = false := by
  have hinv := stakeInv_applyOps ops freshProfile stakeInv_fresh
  obtain ⟨h10, h500, hcomp⟩ := hinv
  refine ⟨h10, h500, hcomp, ?_, ?_⟩ <;>
    · unfold record_success
      dsimp only
      split <;> rfl

/-- Witness for C3 after two failures (compassion mode active). -/
theorem C3_profile_invariants_witness :
    2 ≤ (applyOps freshProfile [StakeOp.failure 0, StakeOp.failure 1]).recent_failures
    ∧ (record_success 2 (applyOps freshProfile
        [StakeOp.failure 0, StakeOp.failure 1])).1.recent_failures = 0 := by
  have h := C3_profile_invariants [StakeOp.failure 0, StakeOp.failure 1] 2
  refine ⟨h.2.2.1 ?_, h.2.2.2.1⟩
  simp [applyOps, applyOp, record_failure, freshProfile]

/-- C4 counterexample: `record_success` and `record_failure` return
`None` — no change tuple comes back to the caller, already on a fresh
profile. -/
theorem C4_change_tuple_counterexample :
    (record_success 0 freshProfile).2.2 = none
    ∧ (record_failure 0 freshProfile).2.2 = none := by
  constructor <;> simp [record_success, record_failure, freshProfile]

/-- C4 (amended): both recording operations return nothing; the old/new
stake values travel only in the stake-adjustment event handed to the
observability logger, and that event is produced exactly when the
stake-updating branch fires (streak ≥ 3 after a success, recent failures
≥ 2 after a failure). -/
theorem C4_no_return_event_carries_change (now : ℤ) (p : UserProfile) :
    (record_success now p).2.2 = none
    ∧ (record_failure now p).2.2 = none
    ∧ (∀ o n, (record_success now p).2.1 = some (o, n) →
        o = p.current_stake ∧ n = (record_success now p).1.current_stake)
    ∧ ((record_success now p).2.1.isSome ↔ p.current_streak + 1 ≥ 3)
    ∧ (∀ o n, (record_failure now p).2.1 = some (o, n) →
        o = p.current_stake ∧ n = (record_failure now p).1.current_stake)
    ∧ ((record_failure now p).2.1.isSome ↔ p.recent_failures + 1 ≥ 2) := by
  unfold record_success record_failure
  dsimp only
  refine ⟨?_, ?_, ?_, ?_, ?_, ?_⟩ <;> split <;> simp_all

/-- Witness for C4 (amended) on a profile whose third success fires the
stake increase. -/
theorem C4_no_return_event_carries_change_witness :
    (record_success 0 { freshProfile with current_streak := 2 }).2.2 = none
    ∧ (record_success 0 { freshProfile with current_streak := 2 }).2.1.isSome := by
  have h := C4_no_return_event_carries_change 0 { freshProfile with current_streak := 2 }
  exact ⟨h.1, h.2.2.2.1.mpr (by simp [freshProfile])⟩

/-- C6: three successes on a fresh profile leave the stake at 10 for the
first two calls (no adjustment event) and raise it to 12 with streak 3 on
the third, where the 1.2 multiplier fires. -/
theorem C6_three_successes :
    (record_success 0 freshProfile).1.current_streak = 1
    ∧ (record_success 0 freshProfile).1.current_stake = 10
    ∧ (record_success 0 freshProfile).2.1 = none
    ∧ (record_success 1 (record_success 0 freshProfile).1).1.current_streak = 2
    ∧ (record_success 1 (record_success 0 freshProfile).1).1.current_stake = 10
    ∧ (record_success 1 (record_success 0 freshProfile).1).2.1 = none
    ∧ (applyOps freshProfile
        [StakeOp.success 0, StakeOp.success 1, StakeOp.success 2]).current_streak = 3
    ∧ (applyOps freshProfile
        [StakeOp.success 0, StakeOp.success 1, StakeOp.success 2]).current_stake = 12
    ∧ (record_success 2 (record_success 1 (record_success 0 freshProfile).1).1).2.1
        = some (10, 12) := by
  norm_num [applyOps, applyOp, record_success, freshProfile, min_def]

/-- C8: the ultimatum query answers true whenever the recent-failure
count is ≥ 3, whatever the goal-registry lookup produced, and a failing
lookup degrades to exactly the failure-count-only rule instead of
raising. -/
theorem C8_ultimatum_failure_count (p : UserProfile) (lookup : GoalLookup) (now : ℤ)
    (h : p.recent_failures ≥ 3) :
    should_send_ultimatum p lookup now = true
    ∧ ∀ q : UserProfile, should_send_ultimatum q (Except.error ()) now
        = decide (q.recent_failures ≥ 3) := by
  refine ⟨?_, fun q => rfl⟩
  unfold should_send_ultimatum
  cases lookup with
  | error e => simpa using h
  | ok o =>
    cases o with
    | none => simpa using h
    | some g =>
      dsimp only
      rw [if_pos h]

/-- Witness for C8 at a profile with three recent failures. -/
theorem C8_ultimatum_failure_count_witness :
    should_send_ultimatum { freshProfile with recent_failures := 3 }
        (Except.ok none) 0 = true
    ∧ should_send_ultimatum { freshProfile with recent_failures := 3 }
        (Except.error ()) 0 = decide (3 ≥ 3) := by
  have h := C8_ultimatum_failure_count { freshProfile with recent_failures := 3 }
    (Except.ok none) 0 (by simp [freshProfile])
  exact ⟨h.1, h.2 _⟩

/-- C10: any synthesized verdict other than APPROVED — UNCLEAR and
FRAUD_DETECTED included — routes the submission to `record_failure`,
which zeroes the streak, increments the lifetime and recent failure
counts, and applies the compassion-mode stake reduction once the recent
count reaches 2. -/
theorem C10_unapproved_routes_to_failure (env : FraudEnv) (store : FraudStore)
    (profile : UserProfile) (vision : VisionResult) (image_data : List ℕ)
    (user_id goal_id : String) (md : Metadata)
    (h : (process_submission env store profile vision image_data user_id
        goal_id md).2.2.1.verdict ≠ Verdict.approved) :
    (process_submission env store profile vision image_data user_id goal_id md).2.1
        = (record_failure env.now profile).1
    ∧ (record_failure env.now profile).1.current_streak = 0
    ∧ (record_failure env.now profile).1.total_failures = profile.total_failures + 1
    ∧ (record_failure env.now profile).1.recent_failures = profile.recent_failures + 1
    ∧ (profile.recent_failures + 1 ≥ 2 →
        (record_failure env.now profile).1.compassion_mode = true
        ∧ (record_failure env.now profile).1.current_stake
            = max (profile.current_stake * (8/10)) 10) := by
  refine ⟨?_, ?_, ?_, ?_, ?_⟩
  · unfold process_submission at h ⊢
    dsimp only at h ⊢
    rw [if_neg h]
  · unfold record_failure
    dsimp only
    split <;> rfl
  · unfold record_failure
    dsimp only
    split <;> rfl
  · unfold record_failure
    dsimp only
    split <;> rfl
  · intro h2
    unfold record_failure
    dsimp only
    rw [if_pos h2]
    exact ⟨rfl, rfl⟩

/-- Witness for C10: a classifier reject on a clean first submission. -/
theorem C10_unapproved_routes_to_failure_witness :
    (process_submission wEnv emptyStore freshProfile ⟨"reject", 90⟩ [0] "u" "g" wMd).2.1
      = (record_failure 0 freshProfile).1 :=
  (C10_unapproved_routes_to_failure wEnv emptyStore freshProfile ⟨"reject", 90⟩ [0]
    "u" "g" wMd (by
      simp [process_submission, analyze, make_decision, log_attempt,
        is_duplicate_hash, find_similar_images, check_metadata,
        check_temporal_patterns, match_known_patterns, calculate_fraud_score,
        wEnv, wMd, emptyStore]
      rw [if_neg (by norm_num : ¬ (7 : ℚ) / 10 < 0)]
      decide)).1

/-- C7: every `analyze` call appends exactly one submission record
(carrying the content fingerprint of the evidence bytes), so — because
the fingerprint is a fixed function of the bytes (`henv` states the
second call hashes with the same function) — resubmitting the same bytes
for the same user yields the `duplicate_image` signal on the second
call, whatever the clock, metadata or goal of either call. -/
lemma analyze_mem_duplicate (env : FraudEnv) (store : FraudStore) (b : List ℕ)
    (user goal : String) (md : Metadata)
    (h : is_duplicate_hash store (env.sha256 b) user = true) :
    "duplicate_image" ∈ (analyze env store b user goal md).2.signals := by
  unfold analyze
  dsimp only
  rw [h]
  simp

theorem C7_resubmission_flags_duplicate (env env2 : FraudEnv) (store : FraudStore)
    (b : List ℕ) (user goal goal2 : String) (md md2 : Metadata)
    (henv : env2.sha256 = env.sha256) :
    (analyze env store b user goal md).1.attempts
      = store.attempts ++ [⟨user, goal, env.sha256 b, env.phash b,
          (analyze env store b user goal md).2.signals, "pending", env.now⟩]
    ∧ "duplicate_image" ∈
        (analyze env2 (analyze env store b user goal md).1 b user goal2 md2).2.signals := by
  constructor
  · rfl
  · have hdup : is_duplicate_hash (analyze env store b user goal md).1
        (env2.sha256 b) user = true := by
      have happ : (analyze env store b user goal md).1.attempts
          = store.attempts ++ [⟨user, goal, env.sha256 b, env.phash b,
              (analyze env store b user goal md).2.signals, "pending", env.now⟩] := rfl
      rw [is_duplicate_hash, happ]
      simp [henv]
    exact analyze_mem_duplicate env2 _ b user goal2 md2 hdup

/-- Witness for C7: the same bytes twice through the same environment. -/
theorem C7_resubmission_flags_duplicate_witness :
    "duplicate_image" ∈
      (analyze wEnv (analyze wEnv emptyStore [0] "u" "g" wMd).1 [0] "u" "g2" wMd).2.signals :=
  (C7_resubmission_flags_duplicate wEnv wEnv emptyStore [0] "u" "g" "g2" wMd wMd rfl).2

/-- C5: the submission record is created with verdict `"pending"` by the
fraud engine — but no code path updates it afterwards.  On a clean first
submission with classifier approve at confidence 99 the synthesized
verdict is APPROVED, yet after the whole `process_submission` pipeline
the stored record still reads `"pending"`: the back-fill the spec
describes does not exist. -/
theorem C5_verdict_never_backfilled :
    (process_submission wEnv emptyStore freshProfile ⟨"approve", 99⟩ [0] "u" "g" wMd).2.2.1.verdict
        = Verdict.approved
    ∧ (process_submission wEnv emptyStore freshProfile ⟨"approve", 99⟩ [0] "u" "g" wMd).1.attempts
        = [⟨"u", "g", "h", "", [], "pending", 0⟩] := by
  constructor
  · simp [process_submission, analyze, make_decision, log_attempt,
      is_duplicate_hash, find_similar_images, check_metadata,
      check_temporal_patterns, match_known_patterns, calculate_fraud_score,
      wEnv, wMd, emptyStore]
    norm_num
  · simp [process_submission, analyze, make_decision, log_attempt,
      is_duplicate_hash, find_similar_images, check_metadata,
      check_temporal_patterns, match_known_patterns, calculate_fraud_score,
      wEnv, wMd, emptyStore]

lemma bumpPattern_length (now : ℤ) (key : String) (ps : List FraudPattern) :
    (bumpPattern now key ps).length = ps.length := by
  induction ps with
  | nil => rfl
  | cons p rest ih =>
    unfold bumpPattern
    split
    · simp
    · simp [ih]

lemma bumpPattern_first (now : ℤ) (key : String) (ps₁ ps₂ : List FraudPattern)
    (q : FraudPattern) (hskip : ∀ r ∈ ps₁, r.pattern_type ≠ key)
    (hq : q.pattern_type = key) :
    bumpPattern now key (ps₁ ++ q :: ps₂)
      = ps₁ ++
          { q with times_detected := q.times_detected + 1, last_updated := now }
            :: ps₂ := by
  induction ps₁ with
  | nil =>
    simp only [List.nil_append]
    unfold bumpPattern
    rw [if_pos hq]
  | cons r rest ih =>
    simp only [List.cons_append]
    unfold bumpPattern
    rw [if_neg (hskip r (List.mem_cons_self r rest))]
    rw [ih (fun x hx => hskip x (List.mem_cons_of_mem r hx))]

lemma bumpPattern_getD (now : ℤ) (key : String) (ps : List FraudPattern)
    (i : ℕ) (d : FraudPattern) :
    ((bumpPattern now key ps).getD i d).pattern_type = (ps.getD i d).pattern_type
    ∧ (ps.getD i d).times_detected
        ≤ ((bumpPattern now key ps).getD i d).times_detected := by
  induction ps generalizing i with
  | nil => exact ⟨rfl, le_rfl⟩
  | cons p rest ih =>
    rw [show bumpPattern now key (p :: rest)
        = if p.pattern_type = key then
            { p with times_detected := p.times_detected + 1, last_updated := now }
              :: rest
          else p :: bumpPattern now key rest from rfl]
    split
    · cases i with
      | zero => exact ⟨rfl, Nat.le_succ _⟩
      | succ j => exact ⟨rfl, le_rfl⟩
    · cases i with
      | zero => exact ⟨rfl, le_rfl⟩
      | succ j => exact ih j

/-- C9: `_log_attempt` runs the learned-pattern update exactly when the
detected signal set has at least two entries; the update keys on the
first two signals sorted (`patternKey`); with an existing key the first
matching row's hit counter grows by exactly 1 and its timestamp
refreshes while every other row is untouched; with a fresh key a new row
with threshold 0.7 and hit count 1 is appended; no row is ever removed
and no hit counter ever decreases. -/
theorem C9_pattern_learning (env : FraudEnv) (store : FraudStore)
    (user goal fh ph : String) (signals : List String) (now : ℤ)
    (ps ps₁ ps₂ : List FraudPattern) (q : FraudPattern) :
    (2 ≤ signals.length →
      (log_attempt env store user goal fh ph signals).patterns
        = update_patterns env.now signals store.patterns)
    ∧ (signals.length < 2 →
      (log_attempt env store user goal fh ph signals).patterns = store.patterns)
    ∧ ((∀ r ∈ ps, r.pattern_type ≠ patternKey signals) →
      update_patterns now signals ps
        = ps ++ [⟨patternKey signals, signals.take 2, 7/10, 1, now⟩])
    ∧ (ps = ps₁ ++ q :: ps₂ → q.pattern_type = patternKey signals →
      (∀ r ∈ ps₁, r.pattern_type ≠ patternKey signals) →
      update_patterns now signals ps
        = ps₁ ++
            { q with times_detected := q.times_detected + 1, last_updated := now }
              :: ps₂)
    ∧ ps.length ≤ (update_patterns now signals ps).length
    ∧ (∀ i, ∀ d : FraudPattern, i < ps.length →
      ((update_patterns now signals ps).getD i d).pattern_type
          = (ps.getD i d).pattern_type
      ∧ (ps.getD i d).times_detected
          ≤ ((update_patterns now signals ps).getD i d).times_detected) := by
  refine ⟨?_, ?_, ?_, ?_, ?_, ?_⟩
  · intro h
    unfold log_attempt
    dsimp only
    rw [if_pos h]
  · intro h
    unfold log_attempt
    dsimp only
    rw [if_neg (by omega)]
  · intro hno
    unfold update_patterns
    dsimp only
    rw [if_neg]
    simp only [List.any_eq_true, decide_eq_true_eq, not_exists, not_and]
    intro r hr
    exact hno r hr
  · intro hps hq hskip
    subst hps
    unfold update_patterns
    dsimp only
    rw [if_pos, bumpPattern_first now _ ps₁ ps₂ q hskip hq]
    simp only [List.any_eq_true, decide_eq_true_eq]
    exact ⟨q, by simp, hq⟩
  · unfold update_patterns
    dsimp only
    split
    · rw [bumpPattern_length]
    · simp
  · intro i d h
    unfold update_patterns
    dsimp only
    split
    · exact bumpPattern_getD now _ ps i d
    · constructor
      · rw [List.getD_append _ _ _ _ h]
      · rw [List.getD_append _ _ _ _ h]

/-- Witness for C9: a second observation of a two-signal combination
bumps the stored pattern's hit counter from 1 to 2 and refreshes its
timestamp. -/
theorem C9_pattern_learning_witness :
    update_patterns 5 ["b", "a"]
        [⟨patternKey ["b", "a"], ["b", "a"], 7/10, 1, 0⟩]
      = [⟨patternKey ["b", "a"], ["b", "a"], 7/10, 2, 5⟩] := by
  have h := (C9_pattern_learning wEnv emptyStore "u" "g" "fh" "ph" ["b", "a"] 5
    [⟨patternKey ["b", "a"], ["b", "a"], 7/10, 1, 0⟩] [] []
    ⟨patternKey ["b", "a"], ["b", "a"], 7/10, 1, 0⟩).2.2.2.1 rfl rfl (by simp)
  simpa using h

end Pledge
